import Mathlib

/-!
Verification of the diffraction-intensity engine of the TNO-Occultations
repository (src/diffraction_eqs.py): the truncated Lommel-series evaluator
`lommel_u`, the piecewise occultation-intensity formula
`occultation_intensity`, and the lookup-table build loop of the script's
main block. Machine floats are embedded as real numbers; the Python
ValueError raised by `lommel_u` is modelled by an `Except String` error
channel that the intensity calculator propagates.
-/

open scoped BigOperators

/-- Modelled from the spec: the cylindrical Bessel function of the first kind
of integer order (the external library routine `scipy.special.jn` used by
`lommel_u`; the routine itself is not part of the repository), given by its
standard power series J_m(z) = Σ_j (-1)^j / (j! (j+m)!) (z/2)^(m+2j). -/
noncomputable def besselJ (m : ℕ) (z : ℝ) : ℝ :=
  tsum (fun j : ℕ => ((-1 : ℝ) ^ j / ((Nat.factorial j : ℝ) * (Nat.factorial (j + m) : ℝ)))
    * (z / 2) ^ (m + 2 * j))

/-- The summation loop of `lommel_u` (src/diffraction_eqs.py lines 23-27):
`sum_result = 0; for k in range(50): sum_result += (-1)**k * (x/y)**(n+2*k) *
jn(n+2*k, np.pi*x*y)`. -/
noncomputable def lommel_sum (n : ℕ) (x y : ℝ) : ℝ :=
  (List.range 50).foldl
    (fun acc k =>
      acc + (-1 : ℝ) ^ k * (x / y) ^ (n + 2 * k) * besselJ (n + 2 * k) (Real.pi * x * y)) 0

/-- Lommel function evaluator `lommel_u` (src/diffraction_eqs.py lines 9-27):
raises ValueError("x must be less than or equal to y.") when `x > y`,
otherwise returns the 50-term truncated series. The Python exception is
modelled as the `Except.error` case. -/
noncomputable def lommel_u (n : ℕ) (x y : ℝ) : Except String ℝ :=
  if x > y then Except.error "x must be less than or equal to y."
  else Except.ok (lommel_sum n x y)

/-- Intensity calculator `occultation_intensity` (src/diffraction_eqs.py
lines 30-51). If `r >= rho` (outside the shadow, Equation 9) it combines
`u1 = lommel_u(1, rho, r)` and `u2 = lommel_u(2, rho, r)`; otherwise (inside
the shadow, Equation 10) it combines `u0 = lommel_u(0, r, rho)` and
`u1 = lommel_u(1, r, rho)`. A ValueError from `lommel_u` would propagate,
hence the `Except` bind. -/
noncomputable def occultation_intensity (r rho : ℝ) : Except String ℝ :=
  if r ≥ rho then do
    let u1 ← lommel_u 1 rho r
    let u2 ← lommel_u 2 rho r
    pure (1 + u1 ^ 2 + u2 ^ 2 - 2 * u1 * Real.sin (Real.pi / 2 * (r ^ 2 + rho ^ 2))
      + 2 * u2 * Real.cos (Real.pi / 2 * (r ^ 2 + rho ^ 2)))
  else do
    let u0 ← lommel_u 0 r rho
    let u1 ← lommel_u 1 r rho
    pure (u0 ^ 2 + u1 ^ 2)

/-- The pure value computed by `occultation_intensity`: both branches call
`lommel_u` with first argument at most the second, so the series value
`lommel_sum` is what each `lommel_u` call returns (see
`occultation_intensity_eq_ok` below). -/
noncomputable def intensity_val (r rho : ℝ) : ℝ :=
  if r ≥ rho then
    1 + lommel_sum 1 rho r ^ 2 + lommel_sum 2 rho r ^ 2
      - 2 * lommel_sum 1 rho r * Real.sin (Real.pi / 2 * (r ^ 2 + rho ^ 2))
      + 2 * lommel_sum 2 rho r * Real.cos (Real.pi / 2 * (r ^ 2 + rho ^ 2))
  else lommel_sum 0 r rho ^ 2 + lommel_sum 1 r rho ^ 2

/-- Uniform grid point `np.linspace(a, b, num)[i] = a + i*(b-a)/(num-1)`
(endpoint inclusive). -/
noncomputable def linspace (a b : ℝ) (num : ℕ) (i : ℕ) : ℝ :=
  a + (i : ℝ) * ((b - a) / ((num : ℝ) - 1))

/-- Grid resolution of the LUT build loop: `num_points = 400`
(src/diffraction_eqs.py line 58). -/
def num_points : ℕ := 400

/-- Distance grid `r_points = np.linspace(0, 20, num_points)`
(src/diffraction_eqs.py line 59). -/
noncomputable def r_points (i : ℕ) : ℝ := linspace 0 20 num_points i

/-- Radius grid `rho_points = np.linspace(0.01, 20, num_points)`
(src/diffraction_eqs.py line 60). -/
noncomputable def rho_points (j : ℕ) : ℝ := linspace 0.01 20 num_points j

/-- The LUT build loop (src/diffraction_eqs.py lines 61-64) with the
hard-coded constants abstracted into a grid specification: for each `i`, for
each `j`, the record `[r, rho, occultation_intensity(r, rho)]` is written at
flat index `i * n + j`, which is exactly the row-major flat list below. -/
noncomputable def buildLUT (n : ℕ) (r_lo r_hi rho_lo rho_hi : ℝ) : List (ℝ × ℝ × ℝ) :=
  (List.range n).flatMap fun i =>
    (List.range n).map fun j =>
      (linspace r_lo r_hi n i, linspace rho_lo rho_hi n j,
        intensity_val (linspace r_lo r_hi n i) (linspace rho_lo rho_hi n j))

/-- The `lut_array` actually built by the script: 400 points per axis, r over
[0, 20], rho over [0.01, 20]. -/
noncomputable def lut_array : List (ℝ × ℝ × ℝ) := buildLUT num_points 0 20 0.01 20

/-- When the domain guard passes, `lommel_u` returns the series value. -/
theorem lommel_u_ok {n : ℕ} {x y : ℝ} (h : x ≤ y) :
    lommel_u n x y = Except.ok (lommel_sum n x y) := by
  rw [lommel_u, if_neg (not_lt.mpr h)]

/-- The intensity calculator always succeeds and returns `intensity_val`:
each branch orders the `lommel_u` arguments so the domain guard passes. -/
theorem occultation_intensity_eq_ok (r rho : ℝ) :
    occultation_intensity r rho = Except.ok (intensity_val r rho) := by
  by_cases h : r ≥ rho
  · rw [occultation_intensity, if_pos h, intensity_val, if_pos h,
      lommel_u_ok h, lommel_u_ok h]
    rfl
  · have h2 : r ≤ rho := le_of_not_le h
    rw [occultation_intensity, if_neg h, intensity_val, if_neg h,
      lommel_u_ok h2, lommel_u_ok h2]
    rfl

/-- Both branch formulas are sums of squares in disguise, so the intensity
value is non-negative. -/
theorem intensity_val_nonneg (r rho : ℝ) : 0 ≤ intensity_val r rho := by
  rw [intensity_val]
  split
  · have hsc := Real.sin_sq_add_cos_sq (Real.pi / 2 * (r ^ 2 + rho ^ 2))
    nlinarith [sq_nonneg (lommel_sum 1 rho r - Real.sin (Real.pi / 2 * (r ^ 2 + rho ^ 2))),
      sq_nonneg (lommel_sum 2 rho r + Real.cos (Real.pi / 2 * (r ^ 2 + rho ^ 2)))]
  · positivity

/-- A left fold of additions over `List.range` is a `Finset.range` sum. -/
theorem foldl_range_add (f : ℕ → ℝ) (m : ℕ) :
    (List.range m).foldl (fun acc k => acc + f k) 0 = ∑ k in Finset.range m, f k := by
  induction m with
  | zero => simp
  | succ m ih =>
    rw [List.range_succ, List.foldl_append, ih, Finset.sum_range_succ]
    simp

/-- The summation loop computes the 50-term truncated Lommel series. -/
theorem lommel_sum_eq_sum (n : ℕ) (x y : ℝ) :
    lommel_sum n x y = ∑ k in Finset.range 50,
      (-1 : ℝ) ^ k * (x / y) ^ (n + 2 * k) * besselJ (n + 2 * k) (Real.pi * x * y) := by
  rw [lommel_sum, foldl_range_add]

/-- Value of the Bessel series at the origin, order zero: J_0(0) = 1. -/
theorem besselJ_zero_zero : besselJ 0 0 = 1 := by
  rw [besselJ, tsum_eq_single 0]
  · simp
  · intro j hj
    have h2 : ((0 : ℝ) / 2) = 0 := by norm_num
    rw [h2, zero_pow (by omega)]
    ring

/-- Value of the Bessel series at the origin, positive order: J_m(0) = 0. -/
theorem besselJ_pos_zero {m : ℕ} (hm : 0 < m) : besselJ m 0 = 0 := by
  rw [besselJ]
  have h : ∀ j : ℕ, ((-1 : ℝ) ^ j / ((Nat.factorial j : ℝ) * (Nat.factorial (j + m) : ℝ)))
      * ((0 : ℝ) / 2) ^ (m + 2 * j) = 0 := by
    intro j
    have h2 : ((0 : ℝ) / 2) = 0 := by norm_num
    rw [h2, zero_pow (by omega)]
    ring
  simp only [h]
  exact tsum_zero

/-- The truncated series at `x = 0`: only the order-zero leading term
survives, giving 1 for order 0 and 0 otherwise. -/
theorem lommel_sum_x_zero (n : ℕ) (y : ℝ) :
    lommel_sum n 0 y = if n = 0 then 1 else 0 := by
  rw [lommel_sum_eq_sum]
  have hz : Real.pi * 0 * y = 0 := by ring
  have hd : (0 : ℝ) / y = 0 := zero_div y
  simp only [hz, hd]
  rcases Nat.eq_zero_or_pos n with hn | hn
  · subst hn
    rw [if_pos rfl, Finset.sum_eq_single_of_mem 0 (Finset.mem_range.mpr (by norm_num))]
    · simp [besselJ_zero_zero]
    · intro k _ hk
      rw [zero_pow (by omega)]
      ring
  · rw [if_neg (by omega), Finset.sum_eq_zero]
    intro k _
    rw [zero_pow (by omega)]
    ring

/-- Length of a row-major grid list: `m` rows of `n` entries each. -/
theorem list_grid_length {α : Type} (f : ℕ → ℕ → α) (m n : ℕ) :
    ((List.range m).flatMap fun i => (List.range n).map (f i)).length = m * n := by
  induction m with
  | zero => simp
  | succ m ih =>
    rw [List.range_succ, List.flatMap_append, List.length_append, ih]
    simp [Nat.succ_mul]

/-- Indexing a row-major grid list at flat index `i * n + j` yields the
`(i, j)` entry. -/
theorem list_grid_getElem {α : Type} (f : ℕ → ℕ → α) (m n i j : ℕ) (hi : i < m) (hj : j < n) :
    ((List.range m).flatMap fun i => (List.range n).map (f i))[i * n + j]? = some (f i j) := by
  induction m with
  | zero => omega
  | succ m ih =>
    rw [List.range_succ, List.flatMap_append]
    rcases Nat.lt_succ_iff_lt_or_eq.mp hi with h | h
    · rw [List.getElem?_append_left, ih h]
      rw [list_grid_length]
      calc i * n + j < i * n + n := by omega
      _ = (i + 1) * n := by ring
      _ ≤ m * n := Nat.mul_le_mul_right n h
    · subst h
      rw [List.getElem?_append_right]
      · rw [list_grid_length]
        have hij : i * n + j - i * n = j := by omega
        rw [hij]
        simp [List.getElem?_map, List.getElem?_range hj]
      · rw [list_grid_length]
        omega

/-- Claim C1: for every r >= 0 and rho > 0, `occultation_intensity` selects
the branch by comparing r with rho: if r >= rho it returns
1 + u1^2 + u2^2 - 2 u1 sin(pi/2 (r^2+rho^2)) + 2 u2 cos(pi/2 (r^2+rho^2))
with u1 = U_1(rho, r), u2 = U_2(rho, r); otherwise it returns u0^2 + u1^2
with u0 = U_0(r, rho), u1 = U_1(r, rho). At r = rho the outside branch is
taken (the first conjunct applies to r = rho). -/
theorem occultation_branch_selection (r rho : ℝ) (hr : 0 ≤ r) (hrho : 0 < rho) :
    (r ≥ rho → occultation_intensity r rho = Except.ok
      (1 + lommel_sum 1 rho r ^ 2 + lommel_sum 2 rho r ^ 2
        - 2 * lommel_sum 1 rho r * Real.sin (Real.pi / 2 * (r ^ 2 + rho ^ 2))
        + 2 * lommel_sum 2 rho r * Real.cos (Real.pi / 2 * (r ^ 2 + rho ^ 2)))) ∧
    (r < rho → occultation_intensity r rho = Except.ok
      (lommel_sum 0 r rho ^ 2 + lommel_sum 1 r rho ^ 2)) := by
  constructor
  · intro h
    rw [occultation_intensity_eq_ok, intensity_val, if_pos h]
  · intro h
    rw [occultation_intensity_eq_ok, intensity_val, if_neg (not_le.mpr h)]

/-- Witness for C1 at the boundary point r = rho = 1: the outside-shadow
branch is taken. -/
theorem occultation_branch_selection_witness :
    occultation_intensity 1 1 = Except.ok
      (1 + lommel_sum 1 1 1 ^ 2 + lommel_sum 2 1 1 ^ 2
        - 2 * lommel_sum 1 1 1 * Real.sin (Real.pi / 2 * ((1 : ℝ) ^ 2 + (1 : ℝ) ^ 2))
        + 2 * lommel_sum 2 1 1 * Real.cos (Real.pi / 2 * ((1 : ℝ) ^ 2 + (1 : ℝ) ^ 2))) :=
  (occultation_branch_selection 1 1 zero_le_one one_pos).1 (le_refl 1)

/-- Claim C2: for 0 <= x <= y, `lommel_u n x y` returns exactly the
truncated series, the sum over k from 0 to 49 of
(-1)^k (x/y)^(n+2k) J_(n+2k)(pi x y); the truncation count is fixed at 50
terms. -/
theorem lommel_u_truncated_series (n : ℕ) (x y : ℝ) (hx : 0 ≤ x) (hxy : x ≤ y) :
    lommel_u n x y = Except.ok (∑ k in Finset.range 50,
      (-1 : ℝ) ^ k * (x / y) ^ (n + 2 * k) * besselJ (n + 2 * k) (Real.pi * x * y)) := by
  rw [lommel_u_ok hxy, lommel_sum_eq_sum]

/-- Witness for C2 at n = 0, x = 0, y = 1. -/
theorem lommel_u_truncated_series_witness :
    lommel_u 0 0 1 = Except.ok (∑ k in Finset.range 50,
      (-1 : ℝ) ^ k * ((0 : ℝ) / 1) ^ (0 + 2 * k) * besselJ (0 + 2 * k) (Real.pi * 0 * 1)) :=
  lommel_u_truncated_series 0 0 1 le_rfl zero_le_one

/-- Claim C3: `lommel_u` raises the domain error exactly when x > y: for
x > y it returns the error (no implicit swap or silent correction), and for
x <= y it returns the series value without raising. -/
theorem lommel_u_domain_guard (n : ℕ) (x y : ℝ) :
    (x > y → lommel_u n x y = Except.error "x must be less than or equal to y.") ∧
    (x ≤ y → lommel_u n x y = Except.ok (lommel_sum n x y)) := by
  constructor
  · intro h
    rw [lommel_u, if_pos h]
  · intro h
    exact lommel_u_ok h

/-- Witness for C3 at n = 0, x = 2, y = 1 (the error side). -/
theorem lommel_u_domain_guard_witness :
    lommel_u 0 2 1 = Except.error "x must be less than or equal to y." :=
  (lommel_u_domain_guard 0 2 1).1 (by norm_num)

/-- Claim C4: for r >= 0 and rho > 0, `occultation_intensity` never
propagates the evaluator's domain error: each branch calls `lommel_u` with
first argument at most the second, so the error branch is unreachable. -/
theorem occultation_no_domain_error (r rho : ℝ) (hr : 0 ≤ r) (hrho : 0 < rho) :
    ∀ e : String, occultation_intensity r rho ≠ Except.error e := by
  intro e
  rw [occultation_intensity_eq_ok]
  exact fun h => Except.noConfusion h

/-- Witness for C4 at r = 0, rho = 1. -/
theorem occultation_no_domain_error_witness :
    occultation_intensity 0 1 ≠ Except.error "x must be less than or equal to y." :=
  occultation_no_domain_error 0 1 le_rfl one_pos _

/-- Claim C5: for r >= 0 and rho > 0, the value returned by
`occultation_intensity` is non-negative: the outside-branch expression
equals (u1 - sin)^2 + (u2 + cos)^2 and the inside-branch expression is a sum
of two squares. -/
theorem occultation_intensity_nonneg (r rho : ℝ) (hr : 0 ≤ r) (hrho : 0 < rho)
    (v : ℝ) (hv : occultation_intensity r rho = Except.ok v) : 0 ≤ v := by
  rw [occultation_intensity_eq_ok] at hv
  cases hv
  exact intensity_val_nonneg r rho

/-- Witness for C5 at r = 1, rho = 1. -/
theorem occultation_intensity_nonneg_witness : 0 ≤ intensity_val 1 1 :=
  occultation_intensity_nonneg 1 1 zero_le_one one_pos (intensity_val 1 1)
    (occultation_intensity_eq_ok 1 1)

/-- Claim C7: the LUT build produces exactly num_points^2 samples in
row-major order by r index then rho index: the record at flat index
i * num_points + j is (r_points i, rho_points j, intensity at that pair). -/
theorem lut_row_major :
    lut_array.length = num_points ^ 2 ∧
    ∀ i j : ℕ, i < num_points → j < num_points →
      lut_array[i * num_points + j]? =
        some (r_points i, rho_points j, intensity_val (r_points i) (rho_points j)) := by
  constructor
  · rw [lut_array, buildLUT, list_grid_length, pow_two]
  · intro i j hi hj
    rw [lut_array, buildLUT]
    exact list_grid_getElem
      (fun i j => (linspace 0 20 num_points i, linspace 0.01 20 num_points j,
        intensity_val (linspace 0 20 num_points i) (linspace 0.01 20 num_points j)))
      num_points num_points i j hi hj

/-- Witness for C7 at grid indices i = 0, j = 0 (flat index 0). -/
theorem lut_row_major_witness :
    lut_array[0]? = some (r_points 0, rho_points 0, intensity_val (r_points 0) (rho_points 0)) := by
  have h := lut_row_major.2 0 0 (by decide) (by decide)
  simpa using h

/-- Claim C8 counterexample: with an invalid grid specification (rho lower
bound 0, which is non-positive), the build does not fail: it still produces
the full table of n^2 samples, with all records computed. No
ConfigurationError exists anywhere in the build loop. -/
theorem lut_build_no_validation :
    (buildLUT 2 0 20 0 20).length = 4 ∧
    (buildLUT 2 0 20 0 20)[0]? = some (linspace 0 20 2 0, linspace 0 20 2 0,
      intensity_val (linspace 0 20 2 0) (linspace 0 20 2 0)) := by
  constructor
  · rw [buildLUT, list_grid_length]
  · rw [buildLUT]
    have h := list_grid_getElem
      (fun i j => (linspace 0 20 2 i, linspace 0 20 2 j,
        intensity_val (linspace 0 20 2 i) (linspace 0 20 2 j)))
      2 2 0 0 (by norm_num) (by norm_num)
    simpa using h

/-- Claim C8 amended: the LUT build performs no validation of its grid
specification: for every configuration, including a non-positive rho lower
bound or a zero point count, it produces a table of exactly n^2 samples and
raises no error. -/
theorem lut_build_always_full (n : ℕ) (r_lo r_hi rho_lo rho_hi : ℝ) :
    (buildLUT n r_lo r_hi rho_lo rho_hi).length = n ^ 2 := by
  rw [buildLUT, list_grid_length, pow_two]

/-- Claim C9: for every order n and y > 0, `lommel_u n 0 y` returns 0 when
n > 0 (every factor (0/y)^(n+2k) vanishes) and 1 when n = 0 (the k = 0 term
is (0/y)^0 J_0(0) = 1 and all later terms vanish). -/
theorem lommel_u_x_zero (n : ℕ) (y : ℝ) (hy : 0 < y) :
    lommel_u n 0 y = Except.ok (if n = 0 then 1 else 0) := by
  rw [lommel_u_ok hy.le, lommel_sum_x_zero]

/-- Witness for C9 at orders 0 and 1 with y = 1. -/
theorem lommel_u_x_zero_witness :
    lommel_u 0 0 1 = Except.ok 1 ∧ lommel_u 1 0 1 = Except.ok 0 := by
  constructor
  · simpa using lommel_u_x_zero 0 1 one_pos
  · simpa using lommel_u_x_zero 1 1 one_pos
